import Mathlib

/-!
Shallow embedding of the AOI (Area of Interest) satellite-imagery map
application core: the canonical feature data model, the geodesic geometry
helpers (`src/src/utils/mapUtils.ts` and the monolithic `App` component),
the zustand feature store (`src/src/stores/mapStore.ts`), the
model-to-surface reconciliation rebuild (`MapContainer.tsx`, restore
effect), and the GeoJSON export transformation.

JavaScript numbers are modelled as real numbers; JS strings as `String`.
External capabilities (`JSON.parse`, `generateId()`, `new Date()`) are
modelled as explicit parameters, since they are impure platform calls.
-/

namespace AOI

open Real

/-- The four feature kinds of the app (`FeatureType` in `src/src/types`). -/
inductive FeatureType where
  | polygon
  | rectangle
  | circle
  | marker
deriving DecidableEq, Repr

/-- The `coordinates` union of `AOIFeature`:
`number[][] | { center: number[]; radius: number } | number[]`.
Vertex pairs are stored `(lat, lng)`. -/
inductive Coordinates where
  | poly (pts : List (ℝ × ℝ))
  | circle (center : ℝ × ℝ) (radius : ℝ)
  | point (p : ℝ × ℝ)

/-- The canonical AOI feature (`AOIFeature` in `src/src/types`); `area` is the
optional `area?: number` field (`none` = the field is absent / `undefined`). -/
structure AOIFeature where
  id : String
  name : String
  type : FeatureType
  coordinates : Coordinates
  area : Option ℝ
  color : String
  createdAt : String

/-- Embedding of `calculatePolygonArea` from `src/src/utils/mapUtils.ts` (identical code in
the monolithic `App`): below 3 vertices the area is 0; otherwise sum
`(p2.lng - p1.lng) * π/180 * (2 + sin(p1.lat*π/180) + sin(p2.lat*π/180))`
over indices `i`, with `p1 = pts[i]`, `p2 = pts[(i+1) % l]`, and return
`|total * R * R / 2|` with `R = 6378137`. Vertices are `(lat, lng)` pairs. -/
noncomputable def calculatePolygonArea (latlngs : List (ℝ × ℝ)) : ℝ :=
  if latlngs.length < 3 then 0
  else
    let l := latlngs.length
    let total : ℝ := ∑ i ∈ Finset.range l,
      (((latlngs.getD ((i + 1) % l) (0, 0)).2 - (latlngs.getD i (0, 0)).2) * π / 180) *
        (2 + Real.sin ((latlngs.getD i (0, 0)).1 * π / 180) +
          Real.sin ((latlngs.getD ((i + 1) % l) (0, 0)).1 * π / 180))
    |total * 6378137 * 6378137 / 2|

/-- Embedding of `calculateCircleArea` from `src/src/utils/mapUtils.ts`: `π·r²`. -/
noncomputable def calculateCircleArea (radius : ℝ) : ℝ :=
  Real.pi * radius * radius

/-- Spec-side edge sum for the polygon-area claim, written the way the spec
describes it: for each consecutive edge `(p1, p2)` of the vertex list,
wrapping last→first (the list zipped with its one-step rotation), accumulate
`Δlng_rad * (2 + sin(lat1_rad) + sin(lat2_rad))`. -/
noncomputable def specEdgeSum (vs : List (ℝ × ℝ)) : ℝ :=
  ((vs.zip (vs.rotate 1)).map (fun pq =>
    ((pq.2.2 - pq.1.2) * π / 180) *
      (2 + Real.sin (pq.1.1 * π / 180) + Real.sin (pq.2.1 * π / 180)))).sum

/-- Spec-side polygon area: the absolute value of `R²/2` times the edge sum. -/
noncomputable def specPolygonArea (vs : List (ℝ × ℝ)) : ℝ :=
  |6378137 ^ 2 / 2 * specEdgeSum vs|

/-- The raw readings the draw layer object exposes (`layer.getLatLngs()[0]`,
`layer.getLatLng()`, `layer.getRadius()`). `createFeatureFromLayer` casts the
layer per `type` and reads the corresponding accessor, so the model carries
all three readings and the function picks by `type`. -/
structure RawLayer where
  latlngs : List (ℝ × ℝ)
  latlng : ℝ × ℝ
  radius : ℝ

/-- Embedding of `FEATURE_COLORS` from `src/src/utils/mapUtils.ts`. -/
def FEATURE_COLORS : FeatureType → String
  | .polygon => "#3b82f6"
  | .rectangle => "#10b981"
  | .circle => "#8b5cf6"
  | .marker => "#ef4444"

/-- Embedding of `createFeatureFromLayer` from `src/src/utils/mapUtils.ts`. The impure
platform calls `generateId()` and `new Date().toISOString()` are passed in as
the `freshId` and `now` parameters. `name || `AOI n`` uses JS truthiness:
the empty string falls back to the default name. `area > 0 ? area : undefined`
becomes the `Option`-valued `area` field. -/
noncomputable def createFeatureFromLayer (layer : RawLayer) (type : FeatureType)
    (name : String) (existingFeatureCount : ℕ) (freshId now : String) : AOIFeature :=
  let coordsArea : Coordinates × ℝ :=
    match type with
    | .polygon => (.poly layer.latlngs, calculatePolygonArea layer.latlngs)
    | .rectangle => (.poly layer.latlngs, calculatePolygonArea layer.latlngs)
    | .circle => (.circle layer.latlng layer.radius, calculateCircleArea layer.radius)
    | .marker => (.point layer.latlng, 0)
  { id := freshId
    name := if name = "" then "AOI " ++ toString (existingFeatureCount + 1) else name
    type := type
    coordinates := coordsArea.1
    area := if coordsArea.2 > 0 then some coordsArea.2 else none
    color := FEATURE_COLORS type
    createdAt := now }

/-- The layer-visibility toggles of the zustand store
(`src/src/stores/mapStore.ts`). -/
structure LayersState where
  wms : Bool
  drawing : Bool
  features : Bool

/-- The zustand `MapStore` state (`src/src/stores/mapStore.ts`): zustand's
`set` merges the returned partial object into this state, so each action is
modelled as a record update of the fields it returns. -/
structure MapStore where
  center : ℝ × ℝ
  zoom : ℝ
  layers : LayersState
  features : List AOIFeature
  selectedFeature : Option AOIFeature

/-- Embedding of `addFeature` from `src/src/stores/mapStore.ts`:
`set(state => ({ features: [...state.features, feature] }))`. -/
def addFeature (feature : AOIFeature) (st : MapStore) : MapStore :=
  { st with features := st.features ++ [feature] }

/-- Embedding of `removeFeature` from `src/src/stores/mapStore.ts`:
`set(state => ({ features: state.features.filter(f => f.id !== id) }))`. -/
def removeFeature (id : String) (st : MapStore) : MapStore :=
  { st with features := st.features.filter (fun f => f.id != id) }

/-- A `Partial<Feature>` patch: each field optionally present. -/
structure FeaturePatch where
  id : Option String := none
  name : Option String := none
  type : Option FeatureType := none
  coordinates : Option Coordinates := none
  area : Option (Option ℝ) := none
  color : Option String := none
  createdAt : Option String := none

/-- The JS object spread `{ ...f, ...updates }`: fields present in the patch
override the feature's fields. -/
def mergeFeature (f : AOIFeature) (p : FeaturePatch) : AOIFeature :=
  { id := p.id.getD f.id
    name := p.name.getD f.name
    type := p.type.getD f.type
    coordinates := p.coordinates.getD f.coordinates
    area := p.area.getD f.area
    color := p.color.getD f.color
    createdAt := p.createdAt.getD f.createdAt }

/-- Embedding of `updateFeature` from `src/src/stores/mapStore.ts`:
`set(state => ({ features: state.features.map(f => f.id === id ? { ...f, ...updates } : f) }))`. -/
def updateFeature (id : String) (updates : FeaturePatch) (st : MapStore) : MapStore :=
  { st with features := st.features.map (fun f => if f.id = id then mergeFeature f updates else f) }

/-- Embedding of `clearFeatures` from `src/src/stores/mapStore.ts`: `set({ features: [] })`. -/
def clearFeatures (st : MapStore) : MapStore :=
  { st with features := [] }

/-- The rename patch the UI sends (`onUpdate({ name })` in the AOI list item):
only the `name` field is present. -/
def namePatch (name : String) : FeaturePatch :=
  { name := some name }

/-- The `features` `useState` initializer of the monolithic `App`
(`src/unnamed/part_000`, lines 86-89):
`const saved = localStorage.getItem('aoi-features'); return saved ? JSON.parse(saved) : []`.
`saved` is `none` when the key is missing. `parse` models the external
`JSON.parse`: `parse s = none` models a thrown `SyntaxError`, which this
initializer does not catch, so the failure propagates (result `none`).
JS truthiness: the empty string is falsy and yields the empty list. -/
def loadFeatures (parse : String → Option (List AOIFeature)) (saved : Option String) :
    Option (List AOIFeature) :=
  match saved with
  | none => some []
  | some s => if s = "" then some [] else parse s

/-- One point of the exported circle ring (`exportGeoJSON`, circle branch of
`src/unnamed/part_000`): for sample index `i`, `angle = (i/32)·2π` and the
point is `[lng + (r/(111320·cos(lat·π/180)))·sin(angle), lat + (r/111320)·cos(angle)]`
(GeoJSON `[lng, lat]` order, modelled as a `(lng, lat)` pair). -/
noncomputable def circleRingPoint (center : ℝ × ℝ) (radius : ℝ) (i : ℕ) : ℝ × ℝ :=
  let angle : ℝ := ((i : ℝ) / 32) * (2 * π)
  (center.2 + radius / (111320 * Real.cos (center.1 * π / 180)) * Real.sin angle,
   center.1 + radius / 111320 * Real.cos angle)

/-- The exported circle ring: the loop `for (let i = 0; i <= 32; i++)` pushes
the 33 points in index order. -/
noncomputable def circleRing (center : ℝ × ℝ) (radius : ℝ) : List (ℝ × ℝ) :=
  (List.range 33).map (circleRingPoint center radius)

/-- The exported polygon/rectangle ring (`exportGeoJSON` of
`src/unnamed/part_000`):
`[...coords.map(c => [c[1], c[0]]), [coords[0][1], coords[0][0]]]` — every
stored `(lat, lng)` vertex transposed to `(lng, lat)`, with the transposed
first vertex appended to close the ring. On an empty vertex list the source
indexes `coords[0][1]` and throws a `TypeError`; this is modelled as `none`. -/
def exportPolygonRing (coords : List (ℝ × ℝ)) : Option (List (ℝ × ℝ)) :=
  match coords with
  | [] => none
  | c0 :: rest => some (((c0 :: rest).map Prod.swap) ++ [Prod.swap c0])

/-- GeoJSON geometry shapes produced by the export: a `Point` or a `Polygon`
with a list of rings, coordinates in `(lng, lat)` order. -/
inductive GeoGeometry where
  | point (c : ℝ × ℝ)
  | polygonG (rings : List (List (ℝ × ℝ)))

/-- The `geometry` value `exportGeoJSON` produces for one feature: `Point`
(transposed coordinates) for a marker, the sampled circle ring for a circle,
and the transposed closed vertex ring for polygon/rectangle. The source casts
`f.coordinates` per `f.type`; a feature whose `coordinates` variant does not
match its `type` (impossible for features built by creation) is modelled as
`none`. -/
noncomputable def exportGeometry (f : AOIFeature) : Option GeoGeometry :=
  match f.type, f.coordinates with
  | .marker, .point p => some (.point (p.2, p.1))
  | .circle, .circle c r => some (.polygonG [circleRing c r])
  | .polygon, .poly cs => (exportPolygonRing cs).map (fun ring => .polygonG [ring])
  | .rectangle, .poly cs => (exportPolygonRing cs).map (fun ring => .polygonG [ring])
  | _, _ => none

/-- The shape a live Leaflet layer is constructed with in the restore-features
effect of `MapContainer.tsx` (`L.polygon`, `L.rectangle`, `L.circle`,
`L.marker`, each with its color and fill opacity 0.3 except the marker). -/
inductive RenderShape where
  | polygonL (pts : List (ℝ × ℝ)) (color : String)
  | rectangleL (pts : List (ℝ × ℝ)) (color : String)
  | circleL (center : ℝ × ℝ) (radius : ℝ) (color : String)
  | markerL (p : ℝ × ℝ)

/-- A live map layer held by the drawn-items group: the Leaflet layer object
with its `featureId` binding (`layer.featureId = feature.id` in
`MapContainer.tsx` line 189). -/
structure LiveLayer where
  featureId : String
  shape : RenderShape

/-- The layer the restore-features effect builds for one feature (the
`switch (feature.type)` of `MapContainer.tsx`, lines 158-193). The source
casts `feature.coordinates` per `feature.type`; a mismatched variant
(impossible for features built by creation) yields no layer (`none`). -/
def layerOf (f : AOIFeature) : Option LiveLayer :=
  match f.type, f.coordinates with
  | .polygon, .poly pts => some ⟨f.id, .polygonL pts f.color⟩
  | .rectangle, .poly pts => some ⟨f.id, .rectangleL pts f.color⟩
  | .circle, .circle c r => some ⟨f.id, .circleL c r f.color⟩
  | .marker, .point p => some ⟨f.id, .markerL p⟩
  | _, _ => none

/-- The model-to-surface reconciliation rebuild (restore-features effect of
`MapContainer.tsx`, lines 151-194, and the identical effect of the monolithic
`App`): `drawnItems.clearLayers()` discards every current live layer, then one
layer per feature is recreated from its canonical geometry and added
(`if (layer) drawnItems.addLayer(layer)`). The result is therefore a pure
function of the feature list, independent of the previous layer set. -/
def rebuild (features : List AOIFeature) (_current : List LiveLayer) : List LiveLayer :=
  features.filterMap layerOf

/-- Helper: with pairwise-distinct feature ids, filtering out one id is the
same as erasing the first (hence only) feature bearing it. -/
theorem filter_ne_eq_eraseP (l : List AOIFeature) (id : String)
    (h : (l.map AOIFeature.id).Nodup) :
    l.filter (fun f => f.id != id) = l.eraseP (fun f => f.id == id) := by
  induction l with
  | nil => rfl
  | cons x xs ih =>
    simp only [List.map_cons, List.nodup_cons] at h
    by_cases hx : x.id = id
    · have hxs : ∀ f ∈ xs, (f.id != id) = true := by
        intro f hf
        have hne : f.id ≠ x.id := by
          intro e
          exact h.1 (e ▸ List.mem_map_of_mem AOIFeature.id hf)
        simp [bne_iff_ne, hx ▸ hne]
      simp [List.filter_cons, List.eraseP_cons, hx, List.filter_eq_self.mpr hxs]
    · simp [List.filter_cons, List.eraseP_cons, hx, ih h.2]

/-- C9: `removeFeature(id)` with an id no feature bears leaves the whole
store unchanged (a successful silent no-op — the action is total and raises
nothing); with the store's unique-id invariant, `removeFeature(id)` removes
exactly the single feature bearing `id` (the list with that first and only
match erased). -/
theorem removeFeature_spec (st : MapStore) (id : String) :
    ((∀ f ∈ st.features, f.id ≠ id) → removeFeature id st = st) ∧
    ((st.features.map AOIFeature.id).Nodup →
      (removeFeature id st).features = st.features.eraseP (fun f => f.id == id)) := by
  constructor
  · intro h
    have : st.features.filter (fun f => f.id != id) = st.features :=
      List.filter_eq_self.mpr (fun f hf => by simp [bne_iff_ne, h f hf])
    simp only [removeFeature, this]
  · intro h
    simpa [removeFeature] using filter_ne_eq_eraseP st.features id h

/-- Witness for C9 at a concrete one-feature store: removing an unknown id
is the identity, and removing the present id erases that feature. -/
theorem removeFeature_spec_witness :
    removeFeature "zzz"
        ⟨(0, 0), 5, ⟨true, false, true⟩,
          [⟨"a", "AOI 1", .marker, .point (0, 0), none, "#ef4444", "t1"⟩], none⟩
      = ⟨(0, 0), 5, ⟨true, false, true⟩,
          [⟨"a", "AOI 1", .marker, .point (0, 0), none, "#ef4444", "t1"⟩], none⟩ ∧
    (removeFeature "a"
        ⟨(0, 0), 5, ⟨true, false, true⟩,
          [⟨"a", "AOI 1", .marker, .point (0, 0), none, "#ef4444", "t1"⟩], none⟩).features
      = [⟨"a", "AOI 1", .marker, .point (0, 0), none, "#ef4444", "t1"⟩].eraseP
          (fun f => f.id == "a") :=
  ⟨(removeFeature_spec _ "zzz").1
      (by intro f hf; rw [List.mem_singleton] at hf; subst hf; decide),
   (removeFeature_spec _ "a").2 (by simp)⟩

/-- C10: each feature-list mutation of the store (`addFeature`,
`removeFeature`, `updateFeature`, `clearFeatures`) leaves `center`, `zoom`,
the layer-visibility toggles and `selectedFeature` unchanged. -/
theorem mutations_preserve_view_state (st : MapStore) (f : AOIFeature) (id : String)
    (p : FeaturePatch) :
    ((addFeature f st).center = st.center ∧ (addFeature f st).zoom = st.zoom ∧
      (addFeature f st).layers = st.layers ∧
      (addFeature f st).selectedFeature = st.selectedFeature) ∧
    ((removeFeature id st).center = st.center ∧ (removeFeature id st).zoom = st.zoom ∧
      (removeFeature id st).layers = st.layers ∧
      (removeFeature id st).selectedFeature = st.selectedFeature) ∧
    ((updateFeature id p st).center = st.center ∧ (updateFeature id p st).zoom = st.zoom ∧
      (updateFeature id p st).layers = st.layers ∧
      (updateFeature id p st).selectedFeature = st.selectedFeature) ∧
    ((clearFeatures st).center = st.center ∧ (clearFeatures st).zoom = st.zoom ∧
      (clearFeatures st).layers = st.layers ∧
      (clearFeatures st).selectedFeature = st.selectedFeature) :=
  ⟨⟨rfl, rfl, rfl, rfl⟩, ⟨rfl, rfl, rfl, rfl⟩, ⟨rfl, rfl, rfl, rfl⟩, ⟨rfl, rfl, rfl, rfl⟩⟩

/-- C5 counterexample: `addFeature` performs no duplicate-id check. Adding a
feature whose id `"a"` is already borne by a stored feature succeeds and
yields a feature list holding two features with id `"a"`, refuting both the
"fails if `f.id` already exists" and the "never two features with the same
id" parts of the claim. -/
theorem addFeature_duplicate_id_cex :
    ((addFeature ⟨"a", "AOI 2", .marker, .point (1, 1), none, "#ef4444", "t2"⟩
        ⟨(0, 0), 5, ⟨true, false, true⟩,
          [⟨"a", "AOI 1", .marker, .point (0, 0), none, "#ef4444", "t1"⟩],
          none⟩).features.countP (fun f => f.id == "a")) = 2 := by
  decide

/-- C5 (amended): `addFeature(f)` appends `f` to the feature list
unconditionally — it never fails — and it increments the number of stored
features bearing `f.id` by one, so a duplicate id in the input produces a
duplicate id in the store. -/
theorem addFeature_appends_unconditionally (st : MapStore) (f : AOIFeature) :
    (addFeature f st).features = st.features ++ [f] ∧
    (addFeature f st).features.countP (fun g => g.id == f.id)
      = st.features.countP (fun g => g.id == f.id) + 1 := by
  refine ⟨rfl, ?_⟩
  simp [addFeature, List.countP_append, List.countP_cons]

/-- C8 counterexample: renaming an absent id does not fail. `updateFeature`
maps over the list and touches nothing when no feature bears the id: at a
concrete store holding only id `"a"`, a rename of id `"b"` returns the store
unchanged — a silent no-op with no failure surfaced to the caller, refuting
the "fails explicitly" part of the claim. -/
theorem updateFeature_unknown_id_silent_cex :
    updateFeature "b" (namePatch "renamed")
        ⟨(0, 0), 5, ⟨true, false, true⟩,
          [⟨"a", "AOI 1", .marker, .point (0, 0), none, "#ef4444", "t1"⟩], none⟩
      = ⟨(0, 0), 5, ⟨true, false, true⟩,
          [⟨"a", "AOI 1", .marker, .point (0, 0), none, "#ef4444", "t1"⟩], none⟩ := by
  simp [updateFeature]

/-- C8 (amended): the rename path (`updateFeature(id, { name })`) replaces
only the `name` field of every feature bearing `id` and leaves all other
features untouched; when no stored feature bears `id`, the call is a silent
no-op returning the store unchanged, not an explicit failure. -/
theorem updateFeature_rename_spec (st : MapStore) (id nm : String) :
    (updateFeature id (namePatch nm) st).features
      = st.features.map (fun f => if f.id = id then { f with name := nm } else f) ∧
    ((∀ f ∈ st.features, f.id ≠ id) → updateFeature id (namePatch nm) st = st) := by
  constructor
  · rfl
  · intro h
    have : st.features.map (fun f => if f.id = id then mergeFeature f (namePatch nm) else f)
        = st.features := by
      rw [show st.features.map (fun f => if f.id = id then mergeFeature f (namePatch nm) else f)
            = st.features.map (fun f => f) from
          List.map_congr_left (fun f hf => if_neg (h f hf)), List.map_id']
    simp only [updateFeature, this]

/-- Witness for C8 (amended) at a concrete one-feature store: a rename of
the present id `"a"` rewrites only the name, and a rename of the absent id
`"b"` returns the store unchanged. -/
theorem updateFeature_rename_spec_witness :
    (updateFeature "a" (namePatch "renamed")
        ⟨(0, 0), 5, ⟨true, false, true⟩,
          [⟨"a", "AOI 1", .marker, .point (0, 0), none, "#ef4444", "t1"⟩], none⟩).features
      = [⟨"a", "AOI 1", .marker, .point (0, 0), none, "#ef4444", "t1"⟩].map
          (fun f => if f.id = "a" then { f with name := "renamed" } else f) ∧
    updateFeature "b" (namePatch "renamed")
        ⟨(0, 0), 5, ⟨true, false, true⟩,
          [⟨"a", "AOI 1", .marker, .point (0, 0), none, "#ef4444", "t1"⟩], none⟩
      = ⟨(0, 0), 5, ⟨true, false, true⟩,
          [⟨"a", "AOI 1", .marker, .point (0, 0), none, "#ef4444", "t1"⟩], none⟩ :=
  ⟨(updateFeature_rename_spec _ "a" "renamed").1,
   (updateFeature_rename_spec _ "b" "renamed").2
      (by intro f hf; rw [List.mem_singleton] at hf; subst hf; decide)⟩

/-- C4 counterexample: the `features` initializer does not catch parse
failures. At the concrete persisted bytes `"corrupt"` and a `JSON.parse`
that rejects them (modelled by the always-failing parser, as `JSON.parse`
throws a `SyntaxError` on such input), the startup load propagates the
failure instead of producing the empty default list — refuting the
"malformed bytes fall back to empty defaults, never fatal" part. -/
theorem loadFeatures_malformed_fatal_cex :
    loadFeatures (fun _ => none) (some "corrupt") ≠ some [] := by
  simp [loadFeatures]

/-- C4 (amended): on a missing `aoi-features` key (and on the falsy empty
string) startup yields the empty feature list; on present bytes the result
is exactly whatever `JSON.parse` returns — a parse success is used as-is and
a parse failure (thrown `SyntaxError`) propagates out of the initializer
uncaught. -/
theorem loadFeatures_spec (parse : String → Option (List AOIFeature)) (s : String) :
    loadFeatures parse none = some [] ∧
    loadFeatures parse (some "") = some [] ∧
    (s ≠ "" → loadFeatures parse (some s) = parse s) := by
  refine ⟨rfl, rfl, fun h => ?_⟩
  simp [loadFeatures, h]

/-- Witness for C4 (amended): at a parser that accepts `"x"` with the empty
list, the missing-key case and the present-bytes case evaluate as stated. -/
theorem loadFeatures_spec_witness :
    loadFeatures (fun _ => some []) none = some [] ∧
    loadFeatures (fun _ => some []) (some "x")
      = (fun (_ : String) => some ([] : List AOIFeature)) "x" :=
  ⟨(loadFeatures_spec (fun _ => some []) "x").1,
   (loadFeatures_spec (fun _ => some []) "x").2.2 (by decide)⟩

/-- C3: for a Polygon or Rectangle feature the exported GeoJSON geometry is
the single ring obtained by transposing each stored `(lat, lng)` vertex to
`(lng, lat)` and appending the transposed first vertex; dropping that closing
point and transposing back recovers exactly the stored vertex sequence. -/
theorem exportGeometry_polygon_round_trip (f : AOIFeature) (c0 : ℝ × ℝ)
    (rest : List (ℝ × ℝ)) (hc : f.coordinates = .poly (c0 :: rest))
    (ht : f.type = .polygon ∨ f.type = .rectangle) :
    exportGeometry f
      = some (.polygonG [((c0 :: rest).map Prod.swap) ++ [Prod.swap c0]]) ∧
    ((((c0 :: rest).map Prod.swap) ++ [Prod.swap c0]).dropLast).map Prod.swap
      = c0 :: rest := by
  constructor
  · obtain ⟨fid, nm, ty, co, ar, col, ca⟩ := f
    simp only at hc ht
    subst hc
    rcases ht with h | h <;> subst h <;> rfl
  · rw [List.dropLast_concat, List.map_map]
    simp [Prod.swap_swap, Function.comp]

/-- Witness for C3 at a concrete rectangle feature with three stored
vertices. -/
theorem exportGeometry_polygon_round_trip_witness :
    exportGeometry
        ⟨"r1", "AOI 1", .rectangle, .poly [((0:ℝ), (0:ℝ)), (0, 1), (1, 1)], some 1,
          "#10b981", "t1"⟩
      = some (.polygonG
          [([((0:ℝ), (0:ℝ)), (0, 1), (1, 1)].map Prod.swap) ++ [Prod.swap (0, 0)]]) ∧
    ((([((0:ℝ), (0:ℝ)), (0, 1), (1, 1)].map Prod.swap) ++ [Prod.swap (0, 0)]).dropLast).map
        Prod.swap
      = [((0:ℝ), (0:ℝ)), (0, 1), (1, 1)] :=
  exportGeometry_polygon_round_trip _ (0, 0) [(0, 1), (1, 1)] rfl (Or.inr rfl)

/-- Helper: a layer built by `layerOf` is bound to the id of the feature it
was built from. -/
theorem layerOf_featureId (f : AOIFeature) (l : LiveLayer) (h : layerOf f = some l) :
    l.featureId = f.id := by
  obtain ⟨fid, nm, ty, co, ar, col, ca⟩ := f
  cases ty <;> cases co <;> simp [layerOf] at h <;> simp [← h]

/-- Helper: when every feature yields a layer, the rebuilt layer list has one
layer per feature, bound in order to the features' ids. -/
theorem filterMap_layerOf_total (fs : List AOIFeature)
    (hwf : ∀ f ∈ fs, (layerOf f).isSome) :
    (fs.filterMap layerOf).length = fs.length ∧
    (fs.filterMap layerOf).map LiveLayer.featureId = fs.map AOIFeature.id := by
  induction fs with
  | nil => exact ⟨rfl, rfl⟩
  | cons f fs ih =>
    obtain ⟨l, hl⟩ := Option.isSome_iff_exists.mp (hwf f (List.mem_cons_self f fs))
    have ih' := ih (fun g hg => hwf g (List.mem_cons_of_mem f hg))
    constructor
    · simp [List.filterMap_cons, hl, ih'.1]
    · simp [List.filterMap_cons, hl, ih'.2, layerOf_featureId f l hl]

/-- C1: the model-to-surface rebuild clears the live group and recreates one
layer per feature, so it is a pure function of the feature list: rebuilding
twice consecutively with an unchanged feature list yields exactly the same
live layer set as one rebuild, and (for well-formed features, whose
`coordinates` variant matches their `type`) that set has exactly one live
layer per feature with the id-to-handle bindings `map featureId = map id`. -/
theorem rebuild_idempotent (fs : List AOIFeature) (cur : List LiveLayer)
    (hwf : ∀ f ∈ fs, (layerOf f).isSome) :
    rebuild fs (rebuild fs cur) = rebuild fs cur ∧
    (rebuild fs cur).length = fs.length ∧
    (rebuild fs cur).map LiveLayer.featureId = fs.map AOIFeature.id :=
  ⟨rfl, (filterMap_layerOf_total fs hwf).1, (filterMap_layerOf_total fs hwf).2⟩

/-- Witness for C1 at a concrete one-marker feature list over an empty
initial layer set. -/
theorem rebuild_idempotent_witness :
    rebuild [⟨"m1", "AOI 1", .marker, .point ((12.9:ℝ), (77.6:ℝ)), none, "#ef4444", "t1"⟩]
        (rebuild [⟨"m1", "AOI 1", .marker, .point ((12.9:ℝ), (77.6:ℝ)), none, "#ef4444", "t1"⟩] [])
      = rebuild [⟨"m1", "AOI 1", .marker, .point ((12.9:ℝ), (77.6:ℝ)), none, "#ef4444", "t1"⟩] [] ∧
    (rebuild [⟨"m1", "AOI 1", .marker, .point ((12.9:ℝ), (77.6:ℝ)), none, "#ef4444", "t1"⟩] []).length
      = ([⟨"m1", "AOI 1", .marker, .point ((12.9:ℝ), (77.6:ℝ)), none, "#ef4444", "t1"⟩] :
          List AOIFeature).length ∧
    (rebuild [⟨"m1", "AOI 1", .marker, .point ((12.9:ℝ), (77.6:ℝ)), none, "#ef4444", "t1"⟩] []).map
        LiveLayer.featureId
      = [⟨"m1", "AOI 1", .marker, .point ((12.9:ℝ), (77.6:ℝ)), none, "#ef4444", "t1"⟩].map
          AOIFeature.id :=
  rebuild_idempotent _ []
    (by intro f hf; rw [List.mem_singleton] at hf; subst hf; rfl)

/-- Helper: the closing sample of the circle ring (angle `2π`) coincides
with the first sample (angle `0`). -/
theorem circleRingPoint_closes (c : ℝ × ℝ) (r : ℝ) :
    circleRingPoint c r 32 = circleRingPoint c r 0 := by
  have h32 : ((32 : ℕ) : ℝ) / 32 * (2 * π) = 2 * π := by norm_num
  have h0 : ((0 : ℕ) : ℝ) / 32 * (2 * π) = 0 := by norm_num
  simp only [circleRingPoint, h32, h0]
  rw [Real.sin_two_pi, Real.cos_two_pi, Real.sin_zero, Real.cos_zero]

/-- C7: the exported circle ring consists of the 33 samples at the equally
spaced angles `θ_i = (i/32)·2π`, `i = 0..32`, each offset from the center by
`Δlat = (r/111320)·cos θ` and `Δlng = (r/(111320·cos(lat_center·π/180)))·sin θ`
(stated for each sample index below 33), and the ring is closed: its last
point equals its first point. -/
theorem circleRing_spec (c : ℝ × ℝ) (r : ℝ) :
    (circleRing c r).length = 33 ∧
    (∀ i < 33, (circleRing c r).getD i (0, 0)
      = (c.2 + r / (111320 * Real.cos (c.1 * π / 180)) * Real.sin (((i : ℝ) / 32) * (2 * π)),
         c.1 + r / 111320 * Real.cos (((i : ℝ) / 32) * (2 * π)))) ∧
    (circleRing c r).getLast? = (circleRing c r).head? := by
  refine ⟨by simp [circleRing], ?_, ?_⟩
  · intro i hi
    have hlen : i < (circleRing c r).length := by simpa [circleRing] using hi
    rw [List.getD_eq_getElem _ _ hlen]
    simp [circleRing, circleRingPoint, hi]
  · have hsplit : List.range 33 = List.range 32 ++ [32] := List.range_succ 32
    have hhead : List.range 33 = 0 :: (List.range 32).map Nat.succ := List.range_succ_eq_map 32
    rw [circleRing]
    rw [show ((List.range 33).map (circleRingPoint c r)).getLast?
          = some (circleRingPoint c r 32) by rw [hsplit]; simp,
        show ((List.range 33).map (circleRingPoint c r)).head?
          = some (circleRingPoint c r 0) by rw [hhead]; simp]
    rw [circleRingPoint_closes]

/-- Witness for C7 at the unit circle around the origin, sampling index 0. -/
theorem circleRing_spec_witness :
    (circleRing ((0 : ℝ), (0 : ℝ)) 1).length = 33 ∧
    (circleRing ((0 : ℝ), (0 : ℝ)) 1).getD 0 (0, 0)
      = (((0 : ℝ), (0 : ℝ)).2
          + 1 / (111320 * Real.cos (((0 : ℝ), (0 : ℝ)).1 * π / 180))
            * Real.sin ((((0 : ℕ) : ℝ) / 32) * (2 * π)),
         ((0 : ℝ), (0 : ℝ)).1
          + 1 / 111320 * Real.cos ((((0 : ℕ) : ℝ) / 32) * (2 * π))) ∧
    (circleRing ((0 : ℝ), (0 : ℝ)) 1).getLast? = (circleRing ((0 : ℝ), (0 : ℝ)) 1).head? :=
  ⟨(circleRing_spec ((0 : ℝ), (0 : ℝ)) 1).1,
   (circleRing_spec ((0 : ℝ), (0 : ℝ)) 1).2.1 0 (by norm_num),
   (circleRing_spec ((0 : ℝ), (0 : ℝ)) 1).2.2⟩

/-- Helper: the spec's edge sum over consecutive pairs (the list zipped with
its one-step rotation) equals the source's index sum with `(i + 1) % l`
wrap-around. -/
theorem specEdgeSum_eq_range_sum (vs : List (ℝ × ℝ)) :
    specEdgeSum vs
      = ∑ i ∈ Finset.range vs.length,
          (((vs.getD ((i + 1) % vs.length) (0, 0)).2 - (vs.getD i (0, 0)).2) * π / 180) *
            (2 + Real.sin ((vs.getD i (0, 0)).1 * π / 180) +
              Real.sin ((vs.getD ((i + 1) % vs.length) (0, 0)).1 * π / 180)) := by
  set F : ℕ → ℝ := fun i =>
    (((vs.getD ((i + 1) % vs.length) (0, 0)).2 - (vs.getD i (0, 0)).2) * π / 180) *
      (2 + Real.sin ((vs.getD i (0, 0)).1 * π / 180) +
        Real.sin ((vs.getD ((i + 1) % vs.length) (0, 0)).1 * π / 180)) with hF
  have hlist : (vs.zip (vs.rotate 1)).map (fun pq =>
      ((pq.2.2 - pq.1.2) * π / 180) *
        (2 + Real.sin (pq.1.1 * π / 180) + Real.sin (pq.2.1 * π / 180)))
      = List.ofFn (fun j : Fin vs.length => F j.val) := by
    apply List.ext_getElem
    · simp [List.length_zip, List.length_rotate]
    · intro i h1 h2
      have hi : i < vs.length := by
        simpa [List.length_zip, List.length_rotate] using h1
      have hpos : 0 < vs.length := lt_of_le_of_lt (Nat.zero_le i) hi
      have hmod : (i + 1) % vs.length < vs.length := Nat.mod_lt _ hpos
      simp only [List.getElem_map, List.getElem_zip, List.getElem_ofFn,
        List.getElem_rotate, hF]
      rw [List.getD_eq_getElem _ _ hi, List.getD_eq_getElem _ _ hmod]
  simp only [specEdgeSum]
  rw [hlist, List.sum_ofFn]
  exact Fin.sum_univ_eq_sum_range F vs.length

/-- C2: on at least 3 vertices, `calculatePolygonArea` returns the absolute
value of `R²/2` (with `R = 6378137`) times the spec's edge sum — over
consecutive edges `(p1, p2)` wrapping last→first, `Δlng_rad · (2 + sin(lat1_rad)
+ sin(lat2_rad))` — and on fewer than 3 vertices it returns 0. -/
theorem calculatePolygonArea_spec (vs : List (ℝ × ℝ)) :
    (3 ≤ vs.length → calculatePolygonArea vs = specPolygonArea vs) ∧
    (vs.length < 3 → calculatePolygonArea vs = 0) := by
  constructor
  · intro h3
    have hlen : ¬ vs.length < 3 := not_lt.mpr h3
    simp only [calculatePolygonArea, if_neg hlen, specPolygonArea,
      specEdgeSum_eq_range_sum]
    congr 1
    ring
  · intro h
    simp only [calculatePolygonArea, if_pos h]

/-- Witness for C2 at a concrete 3-vertex triangle. -/
theorem calculatePolygonArea_spec_witness :
    3 ≤ ([((0 : ℝ), (0 : ℝ)), (0, 1), (1, 1)] : List (ℝ × ℝ)).length ∧
    calculatePolygonArea [((0 : ℝ), (0 : ℝ)), (0, 1), (1, 1)]
      = specPolygonArea [((0 : ℝ), (0 : ℝ)), (0, 1), (1, 1)] :=
  ⟨by decide, (calculatePolygonArea_spec _).1 (by decide)⟩

/-- Helper: a degenerate 3-vertex polygon whose vertices share one longitude
has computed area 0 (every `Δlng` term vanishes). -/
theorem calculatePolygonArea_degenerate :
    calculatePolygonArea [((0 : ℝ), (0 : ℝ)), (1, 0), (2, 0)] = 0 := by
  have h : ¬ ([((0 : ℝ), (0 : ℝ)), (1, 0), (2, 0)] : List (ℝ × ℝ)).length < 3 := by decide
  simp only [calculatePolygonArea, if_neg h]
  norm_num [Finset.sum_range_succ]

/-- C6 counterexample: a feature created from a degenerate (but ≥3-vertex)
polygon layer — three vertices on one meridian — has computed area 0, so
`area > 0 ? area : undefined` stores `undefined`: the `area` field is absent
although the feature's kind is Polygon, refuting "present when the kind is
Polygon, Rectangle, or Circle". -/
theorem createFeature_polygon_no_area_cex :
    (createFeatureFromLayer ⟨[((0 : ℝ), (0 : ℝ)), (1, 0), (2, 0)], (0, 0), 0⟩ .polygon
        "P" 0 "id1" "t1").area = none := by
  simp only [createFeatureFromLayer]
  rw [calculatePolygonArea_degenerate]
  simp

/-- C6 (amended): the `area` field of a feature produced at creation is
absent for Marker; present (with value `π·r²`) for Circle whenever the drawn
radius is positive; and present for Polygon/Rectangle exactly when the
computed polygon area is positive — a degenerate polygonal drawing with
computed area 0 stores no `area` field. -/
theorem createFeature_area_presence (layer : RawLayer) (name : String) (cnt : ℕ)
    (fid now : String) :
    (createFeatureFromLayer layer .marker name cnt fid now).area = none ∧
    (0 < layer.radius →
      (createFeatureFromLayer layer .circle name cnt fid now).area
        = some (calculateCircleArea layer.radius)) ∧
    (createFeatureFromLayer layer .polygon name cnt fid now).area
      = (if 0 < calculatePolygonArea layer.latlngs
          then some (calculatePolygonArea layer.latlngs) else none) ∧
    (createFeatureFromLayer layer .rectangle name cnt fid now).area
      = (if 0 < calculatePolygonArea layer.latlngs
          then some (calculatePolygonArea layer.latlngs) else none) := by
  refine ⟨?_, ?_, rfl, rfl⟩
  · simp [createFeatureFromLayer]
  · intro hr
    have hpos : 0 < calculateCircleArea layer.radius := by
      simp only [calculateCircleArea]
      positivity
    simp [createFeatureFromLayer, if_pos hpos]

/-- Witness for C6 (amended) at a concrete circle layer of radius 5. -/
theorem createFeature_area_presence_witness :
    0 < (5 : ℝ) ∧
    (createFeatureFromLayer ⟨[], ((0 : ℝ), (0 : ℝ)), 5⟩ .circle "n" 0 "i" "t").area
      = some (calculateCircleArea 5) :=
  ⟨by norm_num,
   (createFeature_area_presence ⟨[], ((0 : ℝ), (0 : ℝ)), 5⟩ "n" 0 "i" "t").2.1
      (by norm_num)⟩

end AOI
